import Mathlib

/- Verification development for the certwiz certificate engine (pkg/cert).

Go strings are modelled as lists of characters so that every operation is
executable and kernel-reducible; Go byte buffers, parsed certificates, keys
and other opaque artifacts are type parameters, and the Go standard-library
operations on them (net.ParseIP, url.Parse, pem.Decode, x509 parsing, file
I/O) are explicit function parameters, so each theorem quantifies over every
behaviour of those collaborators. -/

/-- Go strings modelled as lists of characters. -/
abbrev Str := List Char

/-- Coerce a Lean string literal to the model type. -/
def goStr (s : String) : Str := s.data

/-- Go strings.HasPrefix: `hasPfx p s` is true when `p` is a prefix of `s`. -/
def hasPfx : Str → Str → Bool
  | [], _ => true
  | _ :: _, [] => false
  | c :: p, d :: s => c == d && hasPfx p s

/-- ASCII lower-casing of one character, the fragment of Go strings.ToLower
exercised by the engine (tags such as email:, uri:, PEM, DER are ASCII). -/
def charLower (c : Char) : Char :=
  if 'A' ≤ c && c ≤ 'Z' then Char.ofNat (c.toNat + 32) else c

/-- Go strings.ToLower on the model type. -/
def strLower (s : Str) : Str := s.map charLower

/-- Decimal digit character. -/
def digitChar (n : Nat) : Char := Char.ofNat (48 + n)

/-- Fuel-indexed decimal rendering of a natural number. -/
def natDigitsAux : Nat → Nat → Str
  | 0, _ => []
  | fuel+1, n =>
    if n < 10 then [digitChar n]
    else natDigitsAux fuel (n / 10) ++ [digitChar (n % 10)]

/-- Decimal rendering of a natural number. -/
def natToStr (n : Nat) : Str := natDigitsAux (n+1) n

/-- Go fmt %d rendering of an integer. -/
def intToStr (i : Int) : Str :=
  if i < 0 then '-' :: natToStr i.natAbs else natToStr i.natAbs

/-- Go strings.Split on the slash character. -/
def splitOnSlash : Str → List Str
  | [] => [[]]
  | c :: rest =>
    match splitOnSlash rest with
    | [] => if c = '/' then [[], []] else [[c]]
    | w :: ws => if c = '/' then [] :: w :: ws else (c :: w) :: ws

/-- Go strings.Join with a separator. -/
def strJoin (sep : Str) : List Str → Str
  | [] => []
  | [x] => x
  | x :: y :: rest => x ++ sep ++ strJoin sep (y :: rest)

/- ===================== SAN classifier (pkg/cert/san.go) ===================== -/

/-- The four typed SAN buckets returned by splitSANs: DNS names, parsed IP
addresses, email addresses, parsed URIs. `α` is the Go net.IP type and `β`
the Go *url.URL type, both opaque to the classifier. -/
structure SANBuckets (α β : Type) where
  dns : List Str
  ips : List α
  emails : List Str
  uris : List β
deriving DecidableEq

/-- splitSANs from pkg/cert/san.go: classify a flat SAN string list into the
four typed buckets. `parseIP` models net.ParseIP (none on parse failure) and
`parseURI` models url.Parse (none on error). The IP: tag is matched
case-sensitively, email:/uri: case-insensitively; a typed entry whose payload
fails to parse contributes to no bucket; an unprefixed entry goes to DNS. -/
def splitSANs {α β : Type} (parseIP : Str → Option α) (parseURI : Str → Option β) :
    List Str → SANBuckets α β
  | [] => ⟨[], [], [], []⟩
  | san :: rest =>
    let b := splitSANs parseIP parseURI rest
    if hasPfx (goStr "IP:") san then
      match parseIP (san.drop 3) with
      | some ip => { b with ips := ip :: b.ips }
      | none => b
    else if hasPfx (goStr "email:") (strLower san) then
      { b with emails := san.drop 6 :: b.emails }
    else if hasPfx (goStr "uri:") (strLower san) then
      match parseURI (san.drop 4) with
      | some u => { b with uris := u :: b.uris }
      | none => b
    else
      { b with dns := san :: b.dns }

/-- Tag predicate: the entry matches the case-sensitive IP: arm of splitSANs. -/
def sanTagIP (s : Str) : Bool := hasPfx (goStr "IP:") s

/-- Tag predicate: the entry reaches and matches the email: arm. -/
def sanTagEmail (s : Str) : Bool :=
  !sanTagIP s && hasPfx (goStr "email:") (strLower s)

/-- Tag predicate: the entry reaches and matches the uri: arm. -/
def sanTagURI (s : Str) : Bool :=
  !sanTagIP s && !hasPfx (goStr "email:") (strLower s) &&
    hasPfx (goStr "uri:") (strLower s)

/-- Tag predicate: the entry reaches the default (DNS) arm. -/
def sanTagDNS (s : Str) : Bool :=
  !sanTagIP s && !hasPfx (goStr "email:") (strLower s) &&
    !hasPfx (goStr "uri:") (strLower s)

/-- Contribution of one entry to the IP bucket. -/
def sanIPOf {α : Type} (parseIP : Str → Option α) (s : Str) : Option α :=
  if sanTagIP s then parseIP (s.drop 3) else none

/-- Contribution of one entry to the email bucket. -/
def sanEmailOf (s : Str) : Option Str :=
  if sanTagEmail s then some (s.drop 6) else none

/-- Contribution of one entry to the URI bucket. -/
def sanURIOf {β : Type} (parseURI : Str → Option β) (s : Str) : Option β :=
  if sanTagURI s then parseURI (s.drop 4) else none

/- ============== Signing engine SAN policy (cert.go SignCSR 730-744) ============== -/

/-- The SAN-carrying fields of an x509 certificate template or parsed CSR. -/
structure CertSANs (α β : Type) where
  dnsNames : List Str
  ipAddresses : List α
  emailAddresses : List Str
  uris : List β
deriving DecidableEq

/-- SAN policy of SignCSR (cert.go lines 730-744): if the caller-supplied
override list is non-empty, classify it and use the result exclusively
(appending onto the template's empty lists, with the email/URI appends
guarded by non-emptiness as in the source); otherwise copy the CSR's four
SAN fields verbatim. -/
def signCSRTemplateSANs {α β : Type} (parseIP : Str → Option α)
    (parseURI : Str → Option β) (optionsSANs : List Str) (csr : CertSANs α β) :
    CertSANs α β :=
  if 0 < optionsSANs.length then
    let b := splitSANs parseIP parseURI optionsSANs
    { dnsNames := [] ++ b.dns
      ipAddresses := [] ++ b.ips
      emailAddresses := if 0 < b.emails.length then [] ++ b.emails else []
      uris := if 0 < b.uris.length then [] ++ b.uris else [] }
  else
    { dnsNames := csr.dnsNames
      ipAddresses := csr.ipAddresses
      emailAddresses := csr.emailAddresses
      uris := csr.uris }

/- ==================== Signing engine pipeline (cert.go SignCSR) ==================== -/

/-- External collaborators of SignCSR (cert.go lines 648-773): file reads,
pem.Decode, x509 CSR/certificate/key parsing, CSR signature verification,
serial generation, x509.CreateCertificate and os.Create. `B` is the Go byte
buffer type, `C` the parsed CSR, `Cert` the parsed CA certificate, `K` the
CA private key, `S` the serial number, and `α`/`β` the net.IP and *url.URL
types used by the SAN classifier. -/
structure SignWorld (B C Cert K S α β : Type) where
  readCSR : Except Str B
  pemDecode : B → Option B
  parseCertificateRequest : B → Except Str C
  checkSignature : C → Except Str Unit
  readCACert : Except Str B
  parseCACert : B → Except Str Cert
  readCAKey : Except Str B
  parsePKCS8 : B → Except Str K
  parsePKCS1 : B → Except Str K
  randSerial : Except Str S
  parseIP : Str → Option α
  parseURI : Str → Option β
  csrSANs : C → CertSANs α β
  createCertificate : S → C → CertSANs α β → Cert → K → Except Str B
  createFile : Str → Except Str Unit

/-- CA private-key decoding of SignCSR (cert.go lines 697-705): try PKCS#8
first; on failure fall back to PKCS#1, and if that also fails report the
PKCS#1 error (the inner shadowed err in the source). -/
def signCSRParseCAKey {B C Cert K S α β : Type} (w : SignWorld B C Cert K S α β)
    (keyBlock : B) : Except Str K :=
  match w.parsePKCS8 keyBlock with
  | .ok k => .ok k
  | .error _ =>
    match w.parsePKCS1 keyBlock with
    | .ok k => .ok k
    | .error e2 => .error e2

/-- SignCSR (cert.go lines 648-773) as a step sequence, returning the
operation outcome together with the ordered list of completed PEM file
writes (path, payload). Every fallible step aborts with the source's
wrapped error message, and the single certificate write happens last. -/
def SignCSRModel {B C Cert K S α β : Type} (w : SignWorld B C Cert K S α β)
    (optionsSANs : List Str) (certPath : Str) : Except Str Unit × List (Str × B) :=
  match w.readCSR with
  | .error e => (.error (goStr "failed to read CSR: " ++ e), [])
  | .ok csrData =>
  match w.pemDecode csrData with
  | none => (.error (goStr "failed to parse CSR PEM block"), [])
  | some blockBytes =>
  match w.parseCertificateRequest blockBytes with
  | .error e => (.error (goStr "failed to parse CSR: " ++ e), [])
  | .ok csr =>
  match w.checkSignature csr with
  | .error e => (.error (goStr "CSR signature verification failed: " ++ e), [])
  | .ok _ =>
  match w.readCACert with
  | .error e => (.error (goStr "failed to read CA certificate: " ++ e), [])
  | .ok caCertData =>
  match w.pemDecode caCertData with
  | none => (.error (goStr "failed to parse CA certificate PEM block"), [])
  | some caBlock =>
  match w.parseCACert caBlock with
  | .error e => (.error (goStr "failed to parse CA certificate: " ++ e), [])
  | .ok caCert =>
  match w.readCAKey with
  | .error e => (.error (goStr "failed to read CA private key: " ++ e), [])
  | .ok caKeyData =>
  match w.pemDecode caKeyData with
  | none => (.error (goStr "failed to parse CA private key PEM block"), [])
  | some keyBlock =>
  match signCSRParseCAKey w keyBlock with
  | .error e => (.error (goStr "failed to parse CA private key: " ++ e), [])
  | .ok caKey =>
  match w.randSerial with
  | .error e => (.error (goStr "failed to generate serial number: " ++ e), [])
  | .ok serial =>
  let templateSANs := signCSRTemplateSANs w.parseIP w.parseURI optionsSANs (w.csrSANs csr)
  match w.createCertificate serial csr templateSANs caCert caKey with
  | .error e => (.error (goStr "failed to create certificate: " ++ e), [])
  | .ok certBytes =>
  match w.createFile certPath with
  | .error e => (.error (goStr "failed to create certificate file: " ++ e), [])
  | .ok _ => (.ok (), [(certPath, certBytes)])

/- ==================== Verification engine (cert.go Verify) ==================== -/

/-- VerificationResult from cert.go: validity flag plus accumulated error
and warning texts. -/
structure VerificationResult where
  isValid : Bool
  errors : List Str
  warnings : List Str
deriving DecidableEq

/-- Outcome of loading the optional CA bundle in Verify (cert.go lines
342-357): the file read can fail (hard error), the PEM/DER parse can fail
(hard error), or a root pool is obtained. -/
inductive CALoad where
  | readFail (e : Str)
  | parseFail
  | loaded
deriving DecidableEq

/-- Verify (cert.go lines 309-371) with certificate times as integer
nanosecond instants. `hostnameGiven`/`caGiven` model the optional string
arguments being non-empty; `hostnameCheck` models cert.VerifyHostname and
`chainVerify` models x509 chain verification against the loaded roots.
The expiry checks: the not-yet-valid branch (notBefore after now) and the
expired branch (notAfter before now) form an if/else-if chain in the
source. -/
def VerifyModel (notBefore notAfter now : Int)
    (hostnameGiven : Bool) (hostnameCheck : Except Str Unit)
    (caGiven : Bool) (caLoad : CALoad) (chainVerify : Except Str Unit) :
    Except Str VerificationResult :=
  let r0 : VerificationResult := ⟨true, [], []⟩
  let r1 :=
    if now < notBefore then
      { r0 with isValid := false,
                errors := r0.errors ++ [goStr "Certificate is not yet valid"] }
    else if notAfter < now then
      { r0 with isValid := false,
                errors := r0.errors ++ [goStr "Certificate has expired"] }
    else r0
  let r2 :=
    if hostnameGiven then
      match hostnameCheck with
      | .ok _ => r1
      | .error e =>
        { r1 with isValid := false,
                  errors := r1.errors ++ [goStr "Hostname verification failed: " ++ e] }
    else r1
  if caGiven then
    match caLoad with
    | .readFail e => .error (goStr "failed to read CA file: " ++ e)
    | .parseFail => .error (goStr "failed to parse CA certificate(s)")
    | .loaded =>
      match chainVerify with
      | .ok _ => .ok r2
      | .error e =>
        .ok { r2 with isValid := false,
                      errors := r2.errors ++ [goStr "Chain verification failed: " ++ e] }
  else .ok r2

/- ============ Certificate value object metadata (cert.go 51-57, 168-174) ============ -/

/-- Nanoseconds in one hour times 24: the divisor of the days-until-expiry
computation. -/
def nsPerDay : Int := 86400000000000

/-- DaysUntilExpiry as computed by cert.go (int(time.Until(notAfter).Hours()
/ 24)): Go's int conversion truncates toward zero; the model uses exact
truncated integer division of the nanosecond duration by one day. -/
def goDaysUntilExpiry (untilNs : Int) : Int := Int.tdiv untilNs nsPerDay

/-- Modelled from the spec: daysUntilExpiry as the spec words it,
floor((notAfter - now) / 24h), i.e. floor division of the nanosecond
duration by one day. -/
def specDaysUntilExpiry (untilNs : Int) : Int := Int.fdiv untilNs nsPerDay

/-- Derived metadata of the Certificate value object (cert.go lines 51-57
for InspectFile, lines 168-174 and 179-185 for the remote inspector):
source, format tag, expiry flag notAfter < now, and days until expiry. -/
structure CertMeta where
  source : Str
  format : Str
  isExpired : Bool
  daysUntilExpiry : Int
deriving DecidableEq

/-- Construction of the Certificate value object's derived metadata, shared
verbatim by InspectFile and the remote inspector. -/
def mkCertMeta (source format : Str) (notAfter now : Int) : CertMeta :=
  ⟨source, format, decide (notAfter < now), goDaysUntilExpiry (notAfter - now)⟩

/- ==================== TLS version prober (cert.go CheckTLSVersions) ==================== -/

/-- TLS protocol version constant tls.VersionTLS10 (0x0301). -/
def VersionTLS10 : Nat := 769

/-- TLS protocol version constant tls.VersionTLS11 (0x0302). -/
def VersionTLS11 : Nat := 770

/-- TLS protocol version constant tls.VersionTLS12 (0x0303). -/
def VersionTLS12 : Nat := 771

/-- TLS protocol version constant tls.VersionTLS13 (0x0304). -/
def VersionTLS13 : Nat := 772

/-- The tlsVersionNames lookup table (cert.go lines 860-865); a Go map
lookup of a missing key yields the zero string. -/
def tlsVersionName (v : Nat) : Str :=
  if v = VersionTLS10 then goStr "TLS 1.0"
  else if v = VersionTLS11 then goStr "TLS 1.1"
  else if v = VersionTLS12 then goStr "TLS 1.2"
  else if v = VersionTLS13 then goStr "TLS 1.3"
  else []

/-- Per-version probe record TLSVersionInfo from cert.go. -/
structure TLSVersionInfo where
  version : Nat
  name : Str
  supported : Bool
  error : Str
deriving DecidableEq

/-- Aggregate probe result TLSResult from cert.go. -/
structure TLSResult where
  host : Str
  port : Int
  versions : List TLSVersionInfo
  minSupported : Nat
  maxSupported : Nat
deriving DecidableEq

/-- Loop body of CheckTLSVersions (cert.go lines 888-923): attempt one
pinned-version handshake, record the outcome, and update the min/max
trackers exactly as the source does (minSupported updates when it is still
zero or the new version is smaller; maxSupported when the new version is
larger). `probe v = none` models a successful handshake; `probe v = some e`
models tls.DialWithDialer failing with error text `e`. -/
def checkTLSStep (probe : Nat → Option Str)
    (acc : List TLSVersionInfo × Nat × Nat) (version : Nat) :
    List TLSVersionInfo × Nat × Nat :=
  let infos := acc.1
  let minS := acc.2.1
  let maxS := acc.2.2
  match probe version with
  | some e =>
    (infos ++ [⟨version, tlsVersionName version, false, e⟩], minS, maxS)
  | none =>
    let infos := infos ++ [⟨version, tlsVersionName version, true, []⟩]
    let minS := if minS = 0 || version < minS then version else minS
    let maxS := if maxS < version then version else maxS
    (infos, minS, maxS)

/-- CheckTLSVersions (cert.go lines 868-929): probe the four standard TLS
versions oldest to newest, each with min and max version pinned, recording
per-version support and tracking the least and greatest supported version
(both left at zero when nothing succeeds). -/
def CheckTLSVersionsModel (probe : Nat → Option Str) (host : Str) (port : Int) :
    TLSResult :=
  let versions := [VersionTLS10, VersionTLS11, VersionTLS12, VersionTLS13]
  let acc := versions.foldl (checkTLSStep probe) ([], 0, 0)
  ⟨host, port, acc.1, acc.2.1, acc.2.2⟩

/- ========== Format detector / parser and Convert (cert.go 277-307, 374-388) ========== -/

/-- External codec collaborators of parseCertificate and Convert: pem.Decode
(returning the block type and payload of the first PEM block, or none),
pem.EncodeToMemory, x509.ParseCertificate, and the certificate's Raw DER
bytes. `B` is the byte-buffer type and `C` the parsed certificate type. -/
structure CodecModel (B C : Type) where
  pemDecode : B → Option (Str × B)
  pemEncode : Str → B → B
  parseDER : B → Except Str C
  raw : C → B

/-- parseCertificate (cert.go lines 374-388): try pem.Decode first; when a
block is found, parse its payload and tag the format PEM (returning the
payload parse error unwrapped on failure); only when no block is found
parse the raw bytes as DER, wrapping a failure as "failed to parse as PEM
or DER". -/
def parseCertificateModel {B C : Type} (m : CodecModel B C) (data : B) :
    Except Str (C × Str) :=
  match m.pemDecode data with
  | some blk =>
    match m.parseDER blk.2 with
    | .ok c => .ok (c, goStr "PEM")
    | .error e => .error e
  | none =>
    match m.parseDER data with
    | .ok c => .ok (c, goStr "DER")
    | .error e => .error (goStr "failed to parse as PEM or DER: " ++ e)

/-- Convert (cert.go lines 277-307) on in-memory buffers: parse the input,
then re-encode the parsed certificate's raw bytes as a PEM CERTIFICATE
block or emit them as bare DER according to the lower-cased format tag. -/
def ConvertModel {B C : Type} (m : CodecModel B C) (data : B) (format : Str) :
    Except Str B :=
  match parseCertificateModel m data with
  | .error e => .error (goStr "failed to parse certificate: " ++ e)
  | .ok cf =>
    if strLower format = goStr "pem" then
      .ok (m.pemEncode (goStr "CERTIFICATE") (m.raw cf.1))
    else if strLower format = goStr "der" then
      .ok (m.raw cf.1)
    else
      .error (goStr "unsupported format: " ++ format)

/- ========== Filesystem paths and the local generator (cert.go Generate) ========== -/

/-- One step of Go path.Clean's element processing (path/filepath.Clean on
a POSIX system), over a stack whose head is the most recent component:
empty and dot components are dropped; a dotdot component pops the previous
real component, is itself kept after another dotdot outside a rooted path,
and is dropped at the root of a rooted path; anything else is pushed. -/
def cleanStep (rooted : Bool) (stack : List Str) (comp : Str) : List Str :=
  if comp = [] || comp = goStr "." then stack
  else if comp = goStr ".." then
    match stack with
    | [] => if rooted then [] else [goStr ".."]
    | top :: rest =>
      if top = goStr ".." then goStr ".." :: top :: rest else rest
  else comp :: stack

/-- Go filepath.Clean for POSIX paths: split on slashes, process the
components, and reassemble, yielding "." for an empty relative result and
keeping the leading slash of a rooted path. -/
def pathClean (p : Str) : Str :=
  if p = [] then goStr "."
  else
    let rooted := hasPfx (goStr "/") p
    let comps := ((splitOnSlash p).foldl (cleanStep rooted) []).reverse
    let out := strJoin (goStr "/") comps
    if rooted then goStr "/" ++ out
    else if out = [] then goStr "." else out

/-- Go filepath.Join of two elements: non-empty elements joined with a
slash, then cleaned; the empty string when both are empty. -/
def filepathJoin (a b : Str) : Str :=
  if a = [] && b = [] then []
  else if a = [] then pathClean b
  else if b = [] then pathClean a
  else pathClean (a ++ goStr "/" ++ b)

/-- Certificate output path of Generate (cert.go line 232):
filepath.Join(opts.OutputDir, opts.CommonName + ".crt") with the common
name used verbatim. -/
def generateCertPath (outputDir commonName : Str) : Str :=
  filepathJoin outputDir (commonName ++ goStr ".crt")

/-- Private-key output path of Generate (cert.go line 247):
filepath.Join(opts.OutputDir, opts.CommonName + ".key") with the common
name used verbatim. -/
def generateKeyPath (outputDir commonName : Str) : Str :=
  filepathJoin outputDir (commonName ++ goStr ".key")

/-- sanitizeFilename from the CLI layer (cmd/csr.go, reused by cmd/ca.go):
replace filesystem-significant characters with underscores. The core
Generate function does not call it. -/
def sanitizeFilename (name : Str) : Str :=
  name.map fun c =>
    if c = '/' || c = '\\' || c = ':' || c = '*' || c = '?' || c = '"' ||
       c = '<' || c = '>' || c = '|' || c = ' ' then '_' else c

/-- GenerateOptions from cert.go (lines 776-782). -/
structure GenerateOptions where
  commonName : Str
  days : Int
  keySize : Int
  sans : List Str
  outputDir : Str

/-- External collaborators of Generate (cert.go lines 193-274): RSA key
generation, x509.CreateCertificate, os.MkdirAll, os.Create, pem.Encode to
an open file, PKCS#8 key marshalling, os.Chmod, and the GOOS check. `K` is
the private-key type, `B` the byte-buffer type, `α`/`β` the net.IP and
*url.URL types of the SAN classifier. -/
structure GenWorld (K B α β : Type) where
  genKey : Except Str K
  parseIP : Str → Option α
  parseURI : Str → Option β
  createCertificate : K → List Str → List α → Except Str B
  mkdirAll : Str → Except Str Unit
  createFile : Str → Except Str Unit
  pemEncodeWrite : Str → B → Except Str Unit
  marshalKey : K → Except Str B
  chmod : Str → Except Str Unit
  goosWindows : Bool

/-- Generate (cert.go lines 193-274) as a step sequence returning the
outcome and the ordered list of completed PEM writes (path, payload). The
template's SAN fields come from splitSANs when opts.SANs is non-empty
(emails and URIs discarded); both output paths join the output directory
with the raw common name. -/
def GenerateModel {K B α β : Type} (w : GenWorld K B α β) (opts : GenerateOptions) :
    Except Str Unit × List (Str × B) :=
  match w.genKey with
  | .error e => (.error (goStr "failed to generate private key: " ++ e), [])
  | .ok key =>
  let tmplDNS := if 0 < opts.sans.length then (splitSANs w.parseIP w.parseURI opts.sans).dns else []
  let tmplIPs := if 0 < opts.sans.length then (splitSANs w.parseIP w.parseURI opts.sans).ips else []
  match w.createCertificate key tmplDNS tmplIPs with
  | .error e => (.error (goStr "failed to create certificate: " ++ e), [])
  | .ok certDER =>
  match w.mkdirAll opts.outputDir with
  | .error e => (.error (goStr "failed to create output directory: " ++ e), [])
  | .ok _ =>
  let certPath := filepathJoin opts.outputDir (opts.commonName ++ goStr ".crt")
  match w.createFile certPath with
  | .error e => (.error (goStr "failed to create cert file: " ++ e), [])
  | .ok _ =>
  match w.pemEncodeWrite certPath certDER with
  | .error e => (.error (goStr "failed to write certificate: " ++ e), [])
  | .ok _ =>
  let keyPath := filepathJoin opts.outputDir (opts.commonName ++ goStr ".key")
  match w.createFile keyPath with
  | .error e => (.error (goStr "failed to create key file: " ++ e), [(certPath, certDER)])
  | .ok _ =>
  match w.marshalKey key with
  | .error e => (.error (goStr "failed to marshal private key: " ++ e), [(certPath, certDER)])
  | .ok keyBytes =>
  match w.pemEncodeWrite keyPath keyBytes with
  | .error e => (.error (goStr "failed to write private key: " ++ e), [(certPath, certDER)])
  | .ok _ =>
  if w.goosWindows then (.ok (), [(certPath, certDER), (keyPath, keyBytes)])
  else
    match w.chmod keyPath with
    | .error e => (.error (goStr "failed to set key permissions: " ++ e),
                   [(certPath, certDER), (keyPath, keyBytes)])
    | .ok _ => (.ok (), [(certPath, certDER), (keyPath, keyBytes)])

/- ========== Remote inspector dial plan (cert.go InspectURLWithOptions 97-118) ========== -/

/-- Go net.JoinHostPort: bracket the host when it contains a colon or a
percent sign, then append the port after a colon. -/
def joinHostPort (host port : Str) : Str :=
  if host.contains ':' || host.contains '%' then
    goStr "[" ++ host ++ goStr "]:" ++ port
  else host ++ goStr ":" ++ port

/-- The dial address and TLS server name chosen by InspectURLWithOptions. -/
structure DialPlan where
  dialHost : Str
  serverName : Str
deriving DecidableEq

/-- Dial-address and server-name computation of InspectURLWithOptions
(cert.go lines 97-118): the server name is always the target URL's
hostname; when a connect host is supplied the dialed address is
connectHost:port with the separately supplied port, otherwise the URL's
own port is used when present and the supplied port when not. `hostname`
models u.Hostname() and `urlPort` models u.Port() (empty when absent). -/
def inspectDialPlan (hostname urlPort : Str) (port : Int) (connectHost : Str) :
    DialPlan :=
  { serverName := hostname
    dialHost :=
      if connectHost ≠ [] then connectHost ++ goStr ":" ++ intToStr port
      else if urlPort ≠ [] then joinHostPort hostname urlPort
      else hostname ++ goStr ":" ++ intToStr port }

/- ===================== Concrete fixtures for witnesses ===================== -/

/-- Concrete stand-in for net.ParseIP used in witnesses: accepts exactly the
literal 10.0.0.1, representing the parsed address by its text. -/
def parseIPFixture : Str → Option Str :=
  fun s => if s = goStr "10.0.0.1" then some s else none

/-- Concrete stand-in for url.Parse used in witnesses: rejects every input,
modelling a URI parse failure. -/
def parseURIFixture : Str → Option Str := fun _ => none

/-- Concrete SAN fields of a CSR requesting the single DNS name
a.example.com, as in the spec's signing SAN override scenario. -/
def csrSANsFixture : CertSANs Str Str := ⟨[goStr "a.example.com"], [], [], []⟩

/-- Concrete SignCSR world whose CSR self-signature check fails with the
text "crypto/rsa: verification error" while every other collaborator
succeeds; all opaque artifact types are Nat. -/
def signWorldFixture : SignWorld Nat Nat Nat Nat Nat Nat Nat where
  readCSR := .ok 11
  pemDecode := fun b => some (b + 1)
  parseCertificateRequest := fun b => .ok (b + 1)
  checkSignature := fun _ => .error (goStr "crypto/rsa: verification error")
  readCACert := .ok 21
  parseCACert := fun b => .ok (b + 1)
  readCAKey := .ok 31
  parsePKCS8 := fun b => .ok (b + 1)
  parsePKCS1 := fun _ => .error (goStr "pkcs1")
  randSerial := .ok 77
  parseIP := fun _ => none
  parseURI := fun _ => none
  csrSANs := fun _ => ⟨[], [], [], []⟩
  createCertificate := fun _ _ _ _ _ => .ok 99
  createFile := fun _ => .ok ()

/-- Concrete codec over Nat-list buffers for the Convert round-trip
witness: a PEM armor is a leading 0 byte, the certificate type is its own
DER buffer, and DER parsing accepts exactly buffers starting with 1. -/
def codecFixtureA : CodecModel (List Nat) (List Nat) where
  pemDecode := fun d =>
    match d with
    | 0 :: b => some (goStr "CERTIFICATE", b)
    | _ => none
  pemEncode := fun _ b => 0 :: b
  parseDER := fun d =>
    match d with
    | 1 :: _ => .ok d
    | _ => .error (goStr "x509: malformed certificate")
  raw := fun c => c

/-- Concrete codec for the PEM-precedence witness: here DER parsing accepts
exactly buffers starting with 0, so the PEM-armored buffer 0 :: 2 :: [] has
an unparseable payload while the whole buffer would parse as DER. -/
def codecFixtureB : CodecModel (List Nat) (List Nat) where
  pemDecode := fun d =>
    match d with
    | 0 :: b => some (goStr "CERTIFICATE", b)
    | _ => none
  pemEncode := fun _ b => 0 :: b
  parseDER := fun d =>
    match d with
    | 0 :: _ => .ok d
    | _ => .error (goStr "x509: malformed certificate")
  raw := fun c => c

/-- Concrete Generate world in which every collaborator succeeds, for the
witness of the amended output-path claim. -/
def genWorldFixture : GenWorld Nat Nat Str Str where
  genKey := .ok 5
  parseIP := fun _ => none
  parseURI := fun _ => none
  createCertificate := fun _ _ _ => .ok 42
  mkdirAll := fun _ => .ok ()
  createFile := fun _ => .ok ()
  pemEncodeWrite := fun _ _ => .ok ()
  marshalKey := fun _ => .ok 43
  chmod := fun _ => .ok ()
  goosWindows := false

/- ============================ Helper lemmas ============================ -/

/-- splitSANs computes, bucket by bucket, a filter of the input: the DNS
bucket keeps exactly the entries reaching the default arm, and each typed
bucket collects the successfully parsed payloads of the entries matching
its tag. -/
theorem splitSANs_characterization {α β : Type} (p : Str → Option α)
    (q : Str → Option β) (sans : List Str) :
    splitSANs p q sans =
      ⟨sans.filter sanTagDNS, sans.filterMap (sanIPOf p),
       sans.filterMap sanEmailOf, sans.filterMap (sanURIOf q)⟩ := by
  induction sans with
  | nil => rfl
  | cons s rest ih =>
    simp only [splitSANs, ih, List.filter_cons, List.filterMap_cons]
    by_cases h1 : hasPfx (goStr "IP:") s
    · cases hp : p (s.drop 3) with
      | some ip =>
        simp [h1, hp, sanTagDNS, sanTagEmail, sanTagURI, sanTagIP,
              sanIPOf, sanEmailOf, sanURIOf]
      | none =>
        simp [h1, hp, sanTagDNS, sanTagEmail, sanTagURI, sanTagIP,
              sanIPOf, sanEmailOf, sanURIOf]
    · by_cases h2 : hasPfx (goStr "email:") (strLower s)
      · simp [h1, h2, sanTagDNS, sanTagEmail, sanTagURI, sanTagIP,
              sanIPOf, sanEmailOf, sanURIOf]
      · by_cases h3 : hasPfx (goStr "uri:") (strLower s)
        · cases hq : q (s.drop 4) with
          | some u =>
            simp [h1, h2, h3, hq, sanTagDNS, sanTagEmail, sanTagURI, sanTagIP,
                  sanIPOf, sanEmailOf, sanURIOf]
          | none =>
            simp [h1, h2, h3, hq, sanTagDNS, sanTagEmail, sanTagURI, sanTagIP,
                  sanIPOf, sanEmailOf, sanURIOf]
        · simp [h1, h2, h3, sanTagDNS, sanTagEmail, sanTagURI, sanTagIP,
                sanIPOf, sanEmailOf, sanURIOf]

/- ============================ Claim theorems ============================ -/

/-- C1: for every SignOptions SAN override list and parsed CSR, a non-empty
override makes the leaf template carry exactly the classified
DNS/IP/email/URI buckets of the override list (full replacement, no CSR
entry retained), and an empty override copies the CSR's four SAN fields
verbatim. -/
theorem signCSR_san_override {α β : Type} (p : Str → Option α) (q : Str → Option β)
    (optionsSANs : List Str) (csr : CertSANs α β) :
    (optionsSANs ≠ [] →
      signCSRTemplateSANs p q optionsSANs csr =
        ⟨(splitSANs p q optionsSANs).dns, (splitSANs p q optionsSANs).ips,
         (splitSANs p q optionsSANs).emails, (splitSANs p q optionsSANs).uris⟩)
    ∧ (optionsSANs = [] → signCSRTemplateSANs p q optionsSANs csr = csr) := by
  have hif : ∀ {γ : Type} (l : List γ), (if 0 < l.length then l else []) = l := by
    intro γ l; cases l <;> simp
  constructor
  · intro h
    have hlen : 0 < optionsSANs.length := List.length_pos.mpr h
    simp only [signCSRTemplateSANs, if_pos hlen, List.nil_append, hif]
  · intro h
    subst h
    rfl

/-- Witness for C1: the spec's signing scenario, a CSR requesting
a.example.com signed with override [override.example.com, IP:10.0.0.1],
yields a template whose DNS list is exactly [override.example.com] and IP
list exactly [10.0.0.1]. -/
theorem signCSR_san_override_witness :
    signCSRTemplateSANs parseIPFixture parseURIFixture
        [goStr "override.example.com", goStr "IP:10.0.0.1"] csrSANsFixture =
      ⟨[goStr "override.example.com"], [goStr "10.0.0.1"], [], []⟩ :=
  ((signCSR_san_override parseIPFixture parseURIFixture
      [goStr "override.example.com", goStr "IP:10.0.0.1"] csrSANsFixture).1
    (by decide)).trans (by decide)

/-- C5: a SAN entry with the exact IP: tag whose payload does not parse,
or one reaching the uri: arm whose payload does not parse, contributes to
none of the four buckets (the classification of the rest of the list is
unchanged); an entry reaching the default arm is inserted verbatim into
the DNS bucket at its position, leaving the other buckets untouched. -/
theorem san_malformed_dropped_unprefixed_verbatim {α β : Type}
    (p : Str → Option α) (q : Str → Option β) (xs ys : List Str) (e : Str) :
    (sanTagIP e = true → p (e.drop 3) = none →
      splitSANs p q (xs ++ e :: ys) = splitSANs p q (xs ++ ys))
    ∧ (sanTagURI e = true → q (e.drop 4) = none →
      splitSANs p q (xs ++ e :: ys) = splitSANs p q (xs ++ ys))
    ∧ (sanTagDNS e = true →
      splitSANs p q (xs ++ e :: ys) =
        { splitSANs p q (xs ++ ys) with
          dns := (splitSANs p q xs).dns ++ e :: (splitSANs p q ys).dns }) := by
  refine ⟨?_, ?_, ?_⟩
  · intro htag hp
    rw [sanTagIP] at htag
    have hdns : sanTagDNS e = false := by simp [sanTagDNS, sanTagIP, htag]
    have hipof : sanIPOf p e = none := by simp [sanIPOf, sanTagIP, htag, hp]
    have hemailof : sanEmailOf e = none := by simp [sanEmailOf, sanTagEmail, sanTagIP, htag]
    have huriof : sanURIOf q e = none := by simp [sanURIOf, sanTagURI, sanTagIP, htag]
    simp [splitSANs_characterization, List.filter_append, List.filterMap_append,
          List.filter_cons, List.filterMap_cons, hdns, hipof, hemailof, huriof]
  · intro htag hq
    have htagURI := htag
    rw [sanTagURI] at htag
    simp only [Bool.and_eq_true, Bool.not_eq_true'] at htag
    have hdns : sanTagDNS e = false := by
      simp [sanTagDNS, htag.1.1, htag.1.2, htag.2]
    have hipof : sanIPOf p e = none := by simp [sanIPOf, htag.1.1]
    have hemailof : sanEmailOf e = none := by
      simp [sanEmailOf, sanTagEmail, htag.1.1, htag.1.2]
    have huriof : sanURIOf q e = none := by simp [sanURIOf, htagURI, hq]
    simp [splitSANs_characterization, List.filter_append, List.filterMap_append,
          List.filter_cons, List.filterMap_cons, hdns, hipof, hemailof, huriof]
  · intro htag
    have htagDNS := htag
    rw [sanTagDNS] at htag
    simp only [Bool.and_eq_true, Bool.not_eq_true'] at htag
    have hipof : sanIPOf p e = none := by simp [sanIPOf, htag.1.1]
    have hemailof : sanEmailOf e = none := by
      simp [sanEmailOf, sanTagEmail, htag.1.1, htag.1.2]
    have huriof : sanURIOf q e = none := by
      simp [sanURIOf, sanTagURI, htag.1.1, htag.1.2, htag.2]
    simp [splitSANs_characterization, List.filter_append, List.filterMap_append,
          List.filter_cons, List.filterMap_cons, htagDNS, hipof, hemailof, huriof]

/-- Witness for C5: dropping the malformed entry IP:999.x between two
unprefixed entries leaves exactly the classification of the two unprefixed
entries, wildcard kept verbatim as DNS. -/
theorem san_malformed_dropped_witness :
    splitSANs parseIPFixture parseURIFixture
        ([goStr "a.example.com"] ++ goStr "IP:999.x" :: [goStr "*.example.com"]) =
      splitSANs parseIPFixture parseURIFixture
        ([goStr "a.example.com"] ++ [goStr "*.example.com"]) :=
  (san_malformed_dropped_unprefixed_verbatim parseIPFixture parseURIFixture
      [goStr "a.example.com"] [goStr "*.example.com"] (goStr "IP:999.x")).1
    (by decide) (by decide)

/-- C2: whenever the CSR self-signature check fails, SignCSR returns the
wrapped verification error and performs no file write, for every behaviour
of the remaining collaborators (serial generation, template signing, file
creation): the failure is decided before any of them can run. -/
theorem signCSR_sigfail_no_writes {B C Cert K S α β : Type}
    (w : SignWorld B C Cert K S α β) (optionsSANs : List Str) (certPath : Str)
    (csrData blockBytes : B) (csr : C) (e : Str)
    (h1 : w.readCSR = .ok csrData)
    (h2 : w.pemDecode csrData = some blockBytes)
    (h3 : w.parseCertificateRequest blockBytes = .ok csr)
    (h4 : w.checkSignature csr = .error e) :
    SignCSRModel w optionsSANs certPath =
      (.error (goStr "CSR signature verification failed: " ++ e), []) := by
  simp only [SignCSRModel, h1, h2, h3, h4]

/-- Witness for C2: in the concrete world whose signature check fails with
"crypto/rsa: verification error", SignCSR returns that wrapped error and
the write list is empty. -/
theorem signCSR_sigfail_no_writes_witness :
    SignCSRModel signWorldFixture [] (goStr "leaf.crt") =
      (.error (goStr "CSR signature verification failed: " ++
        goStr "crypto/rsa: verification error"), []) :=
  signCSR_sigfail_no_writes signWorldFixture [] (goStr "leaf.crt")
    11 12 13 (goStr "crypto/rsa: verification error") rfl rfl rfl rfl

/-- C3 counterexample: for a certificate with notAfter = 0 < now = 5 <
notBefore = 10 (both the not-yet-valid and the expired condition hold),
Verify returns only the "Certificate is not yet valid" entry — the
"Certificate has expired" entry is absent, because the expired check sits
in the else branch of the not-yet-valid check. -/
theorem verify_both_expiry_errors_counterexample :
    VerifyModel 10 0 5 false (.ok ()) false .loaded (.ok ()) =
      .ok ⟨false, [goStr "Certificate is not yet valid"], []⟩
    ∧ (0 : Int) < 5 ∧ (5 : Int) < 10
    ∧ goStr "Certificate has expired" ∉ [goStr "Certificate is not yet valid"] := by
  refine ⟨rfl, by norm_num, by norm_num, by decide⟩

/-- C3 amended: the two date checks form an if/else-if chain, so when the
certificate is not yet valid only that error is recorded even if it is
also past notAfter; the expired error is recorded exactly when the
not-yet-valid condition fails and notAfter < now. Both checks flip isValid
to false and neither short-circuits the later hostname check. -/
theorem verify_expiry_else_if (notBefore notAfter now : Int)
    (hostnameGiven : Bool) (hostnameCheck : Except Str Unit) :
    (now < notBefore →
      VerifyModel notBefore notAfter now hostnameGiven hostnameCheck false .loaded (.ok ()) =
        .ok (if hostnameGiven then
              match hostnameCheck with
              | .ok _ => ⟨false, [goStr "Certificate is not yet valid"], []⟩
              | .error e => ⟨false, [goStr "Certificate is not yet valid",
                                     goStr "Hostname verification failed: " ++ e], []⟩
             else ⟨false, [goStr "Certificate is not yet valid"], []⟩))
    ∧ (¬ now < notBefore → notAfter < now →
      VerifyModel notBefore notAfter now hostnameGiven hostnameCheck false .loaded (.ok ()) =
        .ok (if hostnameGiven then
              match hostnameCheck with
              | .ok _ => ⟨false, [goStr "Certificate has expired"], []⟩
              | .error e => ⟨false, [goStr "Certificate has expired",
                                     goStr "Hostname verification failed: " ++ e], []⟩
             else ⟨false, [goStr "Certificate has expired"], []⟩)) := by
  constructor
  · intro h
    unfold VerifyModel
    cases hostnameGiven with
    | false => simp [h]
    | true => cases hostnameCheck <;> simp [h]
  · intro h hexp
    unfold VerifyModel
    cases hostnameGiven with
    | false => simp [h, hexp]
    | true => cases hostnameCheck <;> simp [h, hexp]

/-- Witness for C3's amended theorem: at notBefore = 10, notAfter = 0,
now = 5 with no hostname, the result is invalid with exactly the
not-yet-valid entry. -/
theorem verify_expiry_else_if_witness :
    VerifyModel 10 0 5 false (.ok ()) false .loaded (.ok ()) =
      .ok ⟨false, [goStr "Certificate is not yet valid"], []⟩ :=
  ((verify_expiry_else_if 10 0 5 false (.ok ())).1 (by norm_num)).trans rfl

/-- C4 counterexample: a certificate whose notAfter lies exactly 36 hours
(1.5 days) in the past gets daysUntilExpiry = -1 from the code, while the
spec's floor((notAfter - now)/24h) is -2: the stored value is truncation
toward zero, not the floor. -/
theorem daysUntilExpiry_floor_counterexample :
    (mkCertMeta (goStr "cert.pem") (goStr "PEM") 0 129600000000000).daysUntilExpiry = -1
    ∧ specDaysUntilExpiry (0 - 129600000000000) = -2
    ∧ (-1 : Int) ≠ -2 :=
  ⟨by decide, by decide, by decide⟩

/-- C4 amended: daysUntilExpiry is the truncation toward zero of
(notAfter - now) / 24h. It agrees with the spec's floor on nonnegative
durations and on exact multiples of a day, and is floor + 1 on negative
non-whole durations, so for an expired certificate a non-whole number of
days past notAfter the stored value exceeds the floor by one. -/
theorem daysUntilExpiry_truncates (source format : Str) (notAfter now : Int) :
    (mkCertMeta source format notAfter now).daysUntilExpiry =
        goDaysUntilExpiry (notAfter - now)
    ∧ (0 ≤ notAfter - now →
        goDaysUntilExpiry (notAfter - now) = specDaysUntilExpiry (notAfter - now))
    ∧ (nsPerDay ∣ (notAfter - now) →
        goDaysUntilExpiry (notAfter - now) = specDaysUntilExpiry (notAfter - now))
    ∧ (notAfter - now < 0 → ¬ nsPerDay ∣ (notAfter - now) →
        goDaysUntilExpiry (notAfter - now) =
          specDaysUntilExpiry (notAfter - now) + 1) := by
  have hb : (0 : Int) ≤ nsPerDay := by norm_num [nsPerDay]
  refine ⟨rfl, ?_, ?_, ?_⟩
  · intro h
    rw [goDaysUntilExpiry, specDaysUntilExpiry, Int.tdiv_eq_ediv h hb,
        Int.fdiv_eq_ediv _ hb]
  · intro h
    rw [goDaysUntilExpiry, specDaysUntilExpiry, Int.tdiv_eq_ediv_of_dvd h,
        Int.fdiv_eq_ediv_of_dvd h]
  · intro hneg hndvd
    generalize hd : notAfter - now = d at hneg hndvd
    match d, hneg with
    | Int.negSucc k, _ =>
      have hN : ¬ (86400000000000 ∣ (k + 1)) := by
        intro hdvd
        exact hndvd (by
          show (nsPerDay : Int) ∣ Int.negSucc k
          have hrepr : Int.negSucc k = -((k + 1 : Nat) : Int) := rfl
          rw [hrepr, nsPerDay]
          exact Dvd.dvd.neg_right (Int.natCast_dvd_natCast.mpr hdvd))
      show Int.tdiv (Int.negSucc k) nsPerDay = Int.fdiv (Int.negSucc k) nsPerDay + 1
      have h1 : Int.tdiv (Int.negSucc k) nsPerDay =
          -Int.ofNat ((k + 1) / 86400000000000) := rfl
      have h2 : Int.fdiv (Int.negSucc k) nsPerDay =
          Int.negSucc (k / 86400000000000) := rfl
      rw [h1, h2]
      have h3 : (k + 1) / 86400000000000 = k / 86400000000000 := by
        rw [Nat.succ_div]
        simp [hN]
      rw [h3]
      simp [Int.negSucc_eq]

/-- Witness for C4's amended theorem: 36 hours past expiry the stored
value is the floor plus one. -/
theorem daysUntilExpiry_truncates_witness :
    (mkCertMeta (goStr "c.pem") (goStr "PEM") 0 129600000000000).daysUntilExpiry =
      specDaysUntilExpiry (0 - 129600000000000) + 1 := by
  have h := daysUntilExpiry_truncates (goStr "c.pem") (goStr "PEM") 0 129600000000000
  exact h.1.trans (h.2.2.2 (by norm_num) (by norm_num [nsPerDay]))

/-- C6: for every probe outcome, CheckTLSVersions produces exactly four
entries in fixed oldest-to-newest order, each entry recording supported
status and the handshake error text without stopping the remaining
attempts, and sets minSupported/maxSupported to the first and last entries
of the (ascending) supported sublist — both zero when nothing succeeds. -/
theorem checkTLSVersions_characterization (probe : Nat → Option Str)
    (host : Str) (port : Int) :
    (CheckTLSVersionsModel probe host port).versions =
      [VersionTLS10, VersionTLS11, VersionTLS12, VersionTLS13].map (fun v =>
        ⟨v, tlsVersionName v, (probe v).isNone, (probe v).getD []⟩)
    ∧ (CheckTLSVersionsModel probe host port).minSupported =
        (([VersionTLS10, VersionTLS11, VersionTLS12, VersionTLS13].filter
            (fun v => (probe v).isNone)).headD 0)
    ∧ (CheckTLSVersionsModel probe host port).maxSupported =
        (([VersionTLS10, VersionTLS11, VersionTLS12, VersionTLS13].filter
            (fun v => (probe v).isNone)).getLastD 0)
    ∧ (CheckTLSVersionsModel probe host port).host = host
    ∧ (CheckTLSVersionsModel probe host port).port = port := by
  cases h10 : probe 769 <;> cases h11 : probe 770 <;>
    cases h12 : probe 771 <;> cases h13 : probe 772 <;>
      simp [CheckTLSVersionsModel, checkTLSStep, VersionTLS10, VersionTLS11,
            VersionTLS12, VersionTLS13, tlsVersionName, h10, h11, h12, h13]

/-- C7: a successfully parsed certificate converts to DER as exactly its
raw bytes; converting those bytes to PEM re-armors them unchanged, and
re-parsing the resulting PEM yields a certificate with the same raw bytes
as the original parse. The codec hypotheses are the Go library contracts:
pem.Decode inverts pem.EncodeToMemory, x509.ParseCertificate records the
input DER as Raw, and raw DER bytes carry no PEM armor. -/
theorem convert_pem_der_pem_roundtrip {B C : Type} (m : CodecModel B C)
    (data : B) (c : C) (fmt : Str)
    (hpemRT : ∀ b, m.pemDecode (m.pemEncode (goStr "CERTIFICATE") b) =
        some (goStr "CERTIFICATE", b))
    (hrawRT : ∀ d cc, m.parseDER d = .ok cc → m.raw cc = d)
    (hnoArmor : m.pemDecode (m.raw c) = none)
    (hparse : parseCertificateModel m data = .ok (c, fmt)) :
    ConvertModel m data (goStr "der") = .ok (m.raw c)
    ∧ ConvertModel m (m.raw c) (goStr "pem") =
        .ok (m.pemEncode (goStr "CERTIFICATE") (m.raw c))
    ∧ ∃ c2, parseCertificateModel m
          (m.pemEncode (goStr "CERTIFICATE") (m.raw c)) = .ok (c2, goStr "PEM")
        ∧ m.raw c2 = m.raw c := by
  have hre : m.parseDER (m.raw c) = .ok c := by
    unfold parseCertificateModel at hparse
    cases hd : m.pemDecode data with
    | some blk =>
      simp only [hd] at hparse
      cases hp : m.parseDER blk.2 with
      | ok cc =>
        simp only [hp, Except.ok.injEq, Prod.mk.injEq] at hparse
        rw [← hparse.1]
        rw [hrawRT _ _ hp]
        exact hp
      | error e =>
        simp [hp] at hparse
    | none =>
      simp only [hd] at hparse
      cases hp : m.parseDER data with
      | ok cc =>
        simp only [hp, Except.ok.injEq, Prod.mk.injEq] at hparse
        rw [← hparse.1]
        rw [hrawRT _ _ hp]
        exact hp
      | error e =>
        simp [hp] at hparse
  have hlowDer : strLower (goStr "der") = goStr "der" := by decide
  have hlowPem : strLower (goStr "pem") = goStr "pem" := by decide
  have hderNotPem : goStr "der" ≠ goStr "pem" := by decide
  refine ⟨?_, ?_, ?_⟩
  · simp [ConvertModel, hparse, hderNotPem, hlowDer]
  · simp [ConvertModel, parseCertificateModel, hnoArmor, hre, hlowPem]
  · exact ⟨c, by simp [parseCertificateModel, hpemRT, hre], rfl⟩

/-- Witness for C7: in the concrete codec, the PEM buffer [0,1,5] parses
to the certificate with raw bytes [1,5]; DER conversion emits [1,5], PEM
conversion of that emits [0,1,5], and re-parsing recovers raw [1,5]. -/
theorem convert_pem_der_pem_roundtrip_witness :
    ConvertModel codecFixtureA ([0, 1, 5] : List Nat) (goStr "der") = .ok [1, 5]
    ∧ ConvertModel codecFixtureA ([1, 5] : List Nat) (goStr "pem") = .ok [0, 1, 5]
    ∧ ∃ c2, parseCertificateModel codecFixtureA ([0, 1, 5] : List Nat) =
          .ok (c2, goStr "PEM")
        ∧ c2 = [1, 5] := by
  have h := convert_pem_der_pem_roundtrip codecFixtureA [0, 1, 5] [1, 5] (goStr "PEM")
    (fun b => rfl)
    (by
      intro d cc hok
      unfold codecFixtureA at hok
      dsimp at hok
      split at hok
      · cases hok; rfl
      · cases hok)
    rfl rfl
  exact ⟨h.1, h.2.1, ⟨[1, 5], rfl, rfl⟩⟩

/-- C9: when pem.Decode finds a block in the buffer but the block payload
fails to parse as a certificate, parseCertificate returns that payload
parse error directly (not the "failed to parse as PEM or DER" wrapping of
the DER branch) and never succeeds — the DER attempt is unreachable once
a PEM block is present. -/
theorem parseCertificate_pem_precedence {B C : Type} (m : CodecModel B C)
    (data blockBytes : B) (t e : Str)
    (h1 : m.pemDecode data = some (t, blockBytes))
    (h2 : m.parseDER blockBytes = .error e) :
    parseCertificateModel m data = .error e
    ∧ ∀ c fmt, parseCertificateModel m data ≠ .ok (c, fmt) := by
  have hmain : parseCertificateModel m data = .error e := by
    simp [parseCertificateModel, h1, h2]
  exact ⟨hmain, by intro c fmt h; rw [hmain] at h; cases h⟩

/-- Witness for C9: in the concrete codec whose DER parser accepts buffers
starting with 0, the PEM-armored buffer [0,2] fails with the payload parse
error even though the whole buffer would itself parse as DER. -/
theorem parseCertificate_pem_precedence_witness :
    parseCertificateModel codecFixtureB ([0, 2] : List Nat) =
      .error (goStr "x509: malformed certificate")
    ∧ codecFixtureB.parseDER ([0, 2] : List Nat) = .ok [0, 2] :=
  ⟨(parseCertificate_pem_precedence codecFixtureB [0, 2] [2] (goStr "CERTIFICATE")
      (goStr "x509: malformed certificate") rfl rfl).1, rfl⟩

/-- C8 counterexample: Generate builds its output paths from the raw
common name with no filesystem sanitization, so the common name "../evil"
places the certificate at "evil.crt", outside the output directory "out";
a common name "a/b" creates a subdirectory path; and the CLI layer's
sanitizeFilename would have altered both names. -/
theorem generate_sanitized_path_counterexample :
    generateCertPath (goStr "out") (goStr "../evil") = goStr "evil.crt"
    ∧ hasPfx (goStr "out/") (generateCertPath (goStr "out") (goStr "../evil")) = false
    ∧ generateCertPath (goStr "out") (goStr "../evil") ≠ goStr "out"
    ∧ generateCertPath (goStr "out") (goStr "a/b") = goStr "out/a/b.crt"
    ∧ sanitizeFilename (goStr "../evil") ≠ goStr "../evil" :=
  ⟨by decide, by decide, by decide, by decide, by decide⟩

/-- C8 amended: Generate writes the PEM certificate and key files at
filepath.Join(outputDir, commonName + ".crt") and ".key" with the common
name used verbatim (no filesystem sanitization), so a common name
containing path separators or dot-dot segments can place output outside
the output directory. -/
theorem generate_writes_raw_cn_paths {K B α β : Type} (w : GenWorld K B α β)
    (opts : GenerateOptions) (key : K) (certDER keyBytes : B)
    (hkey : w.genKey = .ok key)
    (hcert : ∀ d i, w.createCertificate key d i = .ok certDER)
    (hmk : ∀ s, w.mkdirAll s = .ok ())
    (hcf : ∀ s, w.createFile s = .ok ())
    (hwr : ∀ s b, w.pemEncodeWrite s b = .ok ())
    (hmar : w.marshalKey key = .ok keyBytes)
    (hch : ∀ s, w.chmod s = .ok ()) :
    GenerateModel w opts =
      (.ok (), [(generateCertPath opts.outputDir opts.commonName, certDER),
                (generateKeyPath opts.outputDir opts.commonName, keyBytes)]) := by
  simp only [GenerateModel, hkey, hcert, hmk, hcf, hwr, hmar,
             generateCertPath, generateKeyPath]
  cases hgoos : w.goosWindows <;> simp [hch]

/-- Witness for C8's amended theorem: with every collaborator succeeding,
Generate for common name example.com in directory certs writes exactly
certs/example.com.crt and certs/example.com.key. -/
theorem generate_writes_raw_cn_paths_witness :
    GenerateModel genWorldFixture ⟨goStr "example.com", 365, 2048, [], goStr "certs"⟩ =
      (.ok (), [(goStr "certs/example.com.crt", 42),
                (goStr "certs/example.com.key", 43)]) := by
  have h := generate_writes_raw_cn_paths genWorldFixture
    ⟨goStr "example.com", 365, 2048, [], goStr "certs"⟩ 5 42 43
    rfl (fun _ _ => rfl) (fun _ => rfl) (fun _ => rfl) (fun _ _ => rfl) rfl (fun _ => rfl)
  exact h.trans rfl

/-- C10: with a non-empty connect-address, InspectURLWithOptions dials
connectHost:port using the separately supplied port — the plan is
invariant under the URL's own embedded port, which is honored only when
no connect-address is given — while the TLS server name is the target
URL's hostname in both cases. -/
theorem inspect_dial_plan_connect (hostname urlPort : Str) (port : Int)
    (connectHost : Str) :
    (connectHost ≠ [] →
      (inspectDialPlan hostname urlPort port connectHost).dialHost =
          connectHost ++ goStr ":" ++ intToStr port
      ∧ ∀ urlPort2, inspectDialPlan hostname urlPort2 port connectHost =
          inspectDialPlan hostname urlPort port connectHost)
    ∧ (connectHost = [] → urlPort ≠ [] →
      (inspectDialPlan hostname urlPort port connectHost).dialHost =
          joinHostPort hostname urlPort)
    ∧ (inspectDialPlan hostname urlPort port connectHost).serverName = hostname := by
  refine ⟨?_, ?_, rfl⟩
  · intro h
    exact ⟨by simp [inspectDialPlan, h], fun u2 => by simp [inspectDialPlan, h]⟩
  · intro h hu
    simp [inspectDialPlan, h, hu]

/-- Witness for C10: target example.com with embedded URL port 8443,
supplied port 443 and connect-address proxy.local dials proxy.local:443
(the URL's port 8443 is ignored) while the server name stays
example.com. -/
theorem inspect_dial_plan_connect_witness :
    (inspectDialPlan (goStr "example.com") (goStr "8443") 443 (goStr "proxy.local")).dialHost =
        goStr "proxy.local:443"
    ∧ (inspectDialPlan (goStr "example.com") (goStr "8443") 443 (goStr "proxy.local")).serverName =
        goStr "example.com" := by
  have h := inspect_dial_plan_connect (goStr "example.com") (goStr "8443") 443
    (goStr "proxy.local")
  exact ⟨((h.1 (by decide)).1).trans (by decide), h.2.2⟩
